import Mathlib

/-!
Verification of the reply-gennie email orchestration service
(`src/email/email.service.ts`).

The service is embedded shallowly:

* `createReplyMessage` works on byte lists (`List Nat`, each byte `< 256`),
  mirroring `Buffer.from(message)` on the joined header block; base64
  encoding, the `+`/`/` replacements and the trailing-`=` strip are spelled
  out exactly as in the source.
* The effectful operations (`checkUnreadEmails`, `getEmailData`,
  `processIncomingEmail`, and the private helpers) are embedded as pure
  functions from the outcomes of the external collaborator calls (an
  `Oracle`) to a trace of observable events (`Event`) plus an
  `Except`-valued result; an exception that would propagate to the caller
  is an `Except.error` result, and a `try/catch` in the source becomes the
  mapping of that error to a logged, normally-resolved result.
-/

namespace ReplyGennie

/-! ## Base64 and base64url (Node `Buffer.toString('base64')` plus the
source's `.replace(/\+/g, '-').replace(/\//g, '_').replace(/=+$/, '')`). -/

/-- The standard base64 alphabet, as used by Node's `Buffer.toString('base64')`. -/
def b64Alphabet : List Char :=
  "ABCDEFGHIJKLMNOPQRSTUVWXYZabcdefghijklmnopqrstuvwxyz0123456789+/".toList

/-- The digit character for a 6-bit value. -/
def b64Char (n : Nat) : Char := b64Alphabet.getD n 'A'

/-- Standard base64 encoding of a byte list, with `=` padding, as produced by
`Buffer.from(message).toString('base64')`. -/
def encodeB64 : List Nat → List Char
  | [] => []
  | [a] => [b64Char (a / 4), b64Char (a % 4 * 16), '=', '=']
  | [a, b] => [b64Char (a / 4), b64Char (a % 4 * 16 + b / 16), b64Char (b % 16 * 4), '=']
  | a :: b :: c :: rest =>
      b64Char (a / 4) :: b64Char (a % 4 * 16 + b / 16) ::
      b64Char (b % 16 * 4 + c / 64) :: b64Char (c % 64) :: encodeB64 rest

/-- The source's two global replacements `+ → -` and `/ → _`, applied per
character. -/
def subUrl (c : Char) : Char := if c = '+' then '-' else if c = '/' then '_' else c

/-- The source's `.replace(/=+$/, '')`: remove every trailing `=`. -/
def dropTrailingEq (l : List Char) : List Char :=
  (l.reverse.dropWhile (fun c => c = '=')).reverse

/-- The base64url alphabet (`-` and `_` in positions 62 and 63). -/
def b64UrlAlphabet : List Char :=
  "ABCDEFGHIJKLMNOPQRSTUVWXYZabcdefghijklmnopqrstuvwxyz0123456789-_".toList

/-- 6-bit value of a base64url digit. -/
def b64UrlVal (c : Char) : Nat := b64UrlAlphabet.findIdx (fun d => d = c)

/-- Standard base64url decoding of an unpadded digit string back to bytes:
groups of four digits give three bytes, a trailing group of three digits two
bytes, a trailing group of two digits one byte. -/
def decodeB64url : List Char → List Nat
  | a :: b :: c :: d :: rest =>
      (b64UrlVal a * 4 + b64UrlVal b / 16) ::
      (b64UrlVal b % 16 * 16 + b64UrlVal c / 4) ::
      (b64UrlVal c % 4 * 64 + b64UrlVal d) :: decodeB64url rest
  | [a, b, c] =>
      [b64UrlVal a * 4 + b64UrlVal b / 16, b64UrlVal b % 16 * 16 + b64UrlVal c / 4]
  | [a, b] => [b64UrlVal a * 4 + b64UrlVal b / 16]
  | _ => []

theorem subUrl_b64Char_val : ∀ m : Fin 64, b64UrlVal (subUrl (b64Char m.val)) = m.val := by
  decide

theorem subUrl_b64Char_ne_eq : ∀ m : Fin 64, subUrl (b64Char m.val) ≠ '=' := by
  decide

theorem b64UrlVal_subUrl_b64Char {n : Nat} (h : n < 64) :
    b64UrlVal (subUrl (b64Char n)) = n :=
  subUrl_b64Char_val ⟨n, h⟩

theorem subUrl_b64Char_ne {n : Nat} (h : n < 64) : subUrl (b64Char n) ≠ '=' :=
  subUrl_b64Char_ne_eq ⟨n, h⟩

theorem subUrl_ne_plus (c : Char) : subUrl c ≠ '+' := by
  unfold subUrl
  split
  · decide
  · split
    · decide
    · assumption

theorem subUrl_ne_slash (c : Char) : subUrl c ≠ '/' := by
  unfold subUrl
  split
  · decide
  · split
    · decide
    · assumption

/-- Stripping trailing `=` distributes over an append whose left part is
`=`-free. -/
theorem dropTrailingEq_append (x y : List Char) (hx : ∀ c ∈ x, c ≠ '=') :
    dropTrailingEq (x ++ y) = x ++ dropTrailingEq y := by
  unfold dropTrailingEq
  rw [List.reverse_append, List.dropWhile_append]
  by_cases h : (y.reverse.dropWhile (fun c => c = '=')).isEmpty
  · rw [if_pos h]
    rw [List.isEmpty_iff] at h
    rw [h, List.reverse_nil, List.append_nil]
    have : x.reverse.dropWhile (fun c => c = '=') = x.reverse := by
      cases hxr : x.reverse with
      | nil => simp
      | cons a t =>
          have ha : a ∈ x := by
            have : a ∈ x.reverse := by rw [hxr]; exact List.mem_cons_self a t
            exact List.mem_reverse.mp this
          rw [List.dropWhile_cons_of_neg]
          simp [hx a ha]
    rw [this, List.reverse_reverse]
  · rw [if_neg h, List.reverse_append, List.reverse_reverse]

/-- Round trip: base64url-decoding the source's
base64-encode / replace / strip pipeline recovers the original bytes. -/
theorem decodeB64url_pipeline (l : List Nat) (hl : ∀ x ∈ l, x < 256) :
    decodeB64url (dropTrailingEq ((encodeB64 l).map subUrl)) = l := by
  induction l using encodeB64.induct with
  | case1 =>
      simp [encodeB64, dropTrailingEq, decodeB64url]
  | case2 a =>
      have ha : a < 256 := hl a (by simp)
      have h1 : a / 4 < 64 := by omega
      have h2 : a % 4 * 16 < 64 := by omega
      simp only [encodeB64, List.map_cons, List.map_nil]
      rw [show subUrl '=' = '=' from by decide]
      unfold dropTrailingEq
      simp only [List.reverse_cons, List.reverse_nil, List.nil_append,
        List.cons_append, List.append_assoc]
      rw [List.dropWhile_cons_of_pos (by decide), List.dropWhile_cons_of_pos (by decide),
        List.dropWhile_cons_of_neg (by simp [subUrl_b64Char_ne h2])]
      simp only [List.reverse_cons, List.reverse_nil, List.nil_append,
        List.append_assoc, List.cons_append]
      simp only [decodeB64url, b64UrlVal_subUrl_b64Char h1, b64UrlVal_subUrl_b64Char h2]
      have : a / 4 * 4 + a % 4 * 16 / 16 = a := by omega
      rw [this]
  | case3 a b =>
      have ha : a < 256 := hl a (by simp)
      have hb : b < 256 := hl b (by simp)
      have h1 : a / 4 < 64 := by omega
      have h2 : a % 4 * 16 + b / 16 < 64 := by omega
      have h3 : b % 16 * 4 < 64 := by omega
      simp only [encodeB64, List.map_cons, List.map_nil]
      rw [show subUrl '=' = '=' from by decide]
      unfold dropTrailingEq
      simp only [List.reverse_cons, List.reverse_nil, List.nil_append,
        List.cons_append, List.append_assoc]
      rw [List.dropWhile_cons_of_pos (by decide),
        List.dropWhile_cons_of_neg (by simp [subUrl_b64Char_ne h3])]
      simp only [List.reverse_cons, List.reverse_nil, List.nil_append,
        List.append_assoc, List.cons_append]
      simp only [decodeB64url, b64UrlVal_subUrl_b64Char h1, b64UrlVal_subUrl_b64Char h2,
        b64UrlVal_subUrl_b64Char h3]
      have e1 : a / 4 * 4 + (a % 4 * 16 + b / 16) / 16 = a := by omega
      have e2 : (a % 4 * 16 + b / 16) % 16 * 16 + b % 16 * 4 / 4 = b := by omega
      rw [e1, e2]
  | case4 a b c rest ih =>
      have ha : a < 256 := hl a (by simp)
      have hb : b < 256 := hl b (by simp)
      have hc : c < 256 := hl c (by simp)
      have h1 : a / 4 < 64 := by omega
      have h2 : a % 4 * 16 + b / 16 < 64 := by omega
      have h3 : b % 16 * 4 + c / 64 < 64 := by omega
      have h4 : c % 64 < 64 := by omega
      have hrest : ∀ x ∈ rest, x < 256 := fun x hx => hl x (by simp [hx])
      simp only [encodeB64, List.map_cons]
      have hsplit :
          subUrl (b64Char (a / 4)) :: subUrl (b64Char (a % 4 * 16 + b / 16)) ::
            subUrl (b64Char (b % 16 * 4 + c / 64)) :: subUrl (b64Char (c % 64)) ::
            (encodeB64 rest).map subUrl
          = [subUrl (b64Char (a / 4)), subUrl (b64Char (a % 4 * 16 + b / 16)),
              subUrl (b64Char (b % 16 * 4 + c / 64)), subUrl (b64Char (c % 64))] ++
            (encodeB64 rest).map subUrl := by simp
      rw [hsplit, dropTrailingEq_append]
      · simp only [List.cons_append, List.nil_append]
        simp only [decodeB64url, b64UrlVal_subUrl_b64Char h1, b64UrlVal_subUrl_b64Char h2,
          b64UrlVal_subUrl_b64Char h3, b64UrlVal_subUrl_b64Char h4, ih hrest]
        have e1 : a / 4 * 4 + (a % 4 * 16 + b / 16) / 16 = a := by omega
        have e2 : (a % 4 * 16 + b / 16) % 16 * 16 + (b % 16 * 4 + c / 64) / 4 = b := by omega
        have e3 : (b % 16 * 4 + c / 64) % 4 * 64 + c % 64 = c := by omega
        rw [e1, e2, e3]
      · intro d hd
        simp only [List.mem_cons, List.not_mem_nil, or_false] at hd
        rcases hd with h | h | h | h
        all_goals (subst h; first
          | exact subUrl_b64Char_ne h1
          | exact subUrl_b64Char_ne h2
          | exact subUrl_b64Char_ne h3
          | exact subUrl_b64Char_ne h4)

/-- The stripped/substituted pipeline never contains `+`. -/
theorem pipeline_no_plus (l : List Nat) :
    '+' ∉ dropTrailingEq ((encodeB64 l).map subUrl) := by
  intro h
  unfold dropTrailingEq at h
  rw [List.mem_reverse] at h
  have h2 := (List.dropWhile_sublist (l := ((encodeB64 l).map subUrl).reverse)
    (p := fun c => c = '=')).subset h
  rw [List.mem_reverse, List.mem_map] at h2
  obtain ⟨c, _, hc⟩ := h2
  exact subUrl_ne_plus c hc

/-- The stripped/substituted pipeline never contains `/`. -/
theorem pipeline_no_slash (l : List Nat) :
    '/' ∉ dropTrailingEq ((encodeB64 l).map subUrl) := by
  intro h
  unfold dropTrailingEq at h
  rw [List.mem_reverse] at h
  have h2 := (List.dropWhile_sublist (l := ((encodeB64 l).map subUrl).reverse)
    (p := fun c => c = '=')).subset h
  rw [List.mem_reverse, List.mem_map] at h2
  obtain ⟨c, _, hc⟩ := h2
  exact subUrl_ne_slash c hc

/-- The stripped/substituted pipeline never ends in `=`. -/
theorem pipeline_no_trailing_eq (l : List Nat) :
    (dropTrailingEq ((encodeB64 l).map subUrl)).getLast? ≠ some '=' := by
  unfold dropTrailingEq
  rw [List.getLast?_reverse]
  intro h
  have := List.head?_dropWhile_not (fun c => c = '=')
    ((encodeB64 l).map subUrl).reverse
  rw [h] at this
  simp at this

/-! ## `createReplyMessage` (`email.service.ts`, lines 104–118) -/

/-- The bytes of an ASCII/Latin-1 string literal (one byte per character). -/
def strBytes (s : String) : List Nat := s.data.map Char.toNat

/-- The `messageParts.join('\n')` block of `createReplyMessage`:
`From:`, `To:`, `Subject: Re:`, `In-Reply-To:`, `References:`, a blank line,
then the body text. Byte 10 is `'\n'`. -/
def replyLines (fromA toA subject text messageId : List Nat) : List Nat :=
  strBytes "From: " ++ fromA ++ [10] ++
  strBytes "To: " ++ toA ++ [10] ++
  strBytes "Subject: Re: " ++ subject ++ [10] ++
  strBytes "In-Reply-To: " ++ messageId ++ [10] ++
  strBytes "References: " ++ messageId ++ [10] ++
  [10] ++ text

/-- `createReplyMessage(from, to, subject, text, messageId)`: join the parts
with `'\n'`, base64-encode, replace `+` with `-` and `/` with `_`, and strip
trailing `=`. Fields are byte lists (`from` is a Lean keyword, hence `fromA`). -/
def createReplyMessage (fromA toA subject text messageId : List Nat) : List Char :=
  dropTrailingEq ((encodeB64 (replyLines fromA toA subject text messageId)).map subUrl)

theorem replyLines_bytes_lt (fromA toA subject text messageId : List Nat)
    (h : ∀ x ∈ fromA ++ toA ++ subject ++ text ++ messageId, x < 256) :
    ∀ x ∈ replyLines fromA toA subject text messageId, x < 256 := by
  simp only [List.forall_mem_append] at h
  obtain ⟨⟨⟨⟨hf, ht⟩, hs⟩, htx⟩, hm⟩ := h
  have l1 : ∀ x ∈ strBytes "From: ", x < 256 := by decide
  have l2 : ∀ x ∈ strBytes "To: ", x < 256 := by decide
  have l3 : ∀ x ∈ strBytes "Subject: Re: ", x < 256 := by decide
  have l4 : ∀ x ∈ strBytes "In-Reply-To: ", x < 256 := by decide
  have l5 : ∀ x ∈ strBytes "References: ", x < 256 := by decide
  have l10 : ∀ x ∈ ([10] : List Nat), x < 256 := by decide
  unfold replyLines
  simp only [List.forall_mem_append]
  tauto

/-- C1: for every from `a`, to `b`, subject `S`, text `T` and messageId `M`,
base64url-decoding the string returned by `createReplyMessage a b S T M`
reproduces the newline-joined block `From: a`, `To: b`, `Subject: Re: S`,
`In-Reply-To: M`, `References: M`, blank line, `T`; and the encoded string
contains no `+`, no `/`, and no trailing `=`. -/
theorem createReplyMessage_roundtrip_and_urlsafe
    (fromA toA subject text messageId : List Nat)
    (h : ∀ x ∈ fromA ++ toA ++ subject ++ text ++ messageId, x < 256) :
    decodeB64url (createReplyMessage fromA toA subject text messageId) =
      replyLines fromA toA subject text messageId ∧
    '+' ∉ createReplyMessage fromA toA subject text messageId ∧
    '/' ∉ createReplyMessage fromA toA subject text messageId ∧
    (createReplyMessage fromA toA subject text messageId).getLast? ≠ some '=' :=
  ⟨decodeB64url_pipeline _ (replyLines_bytes_lt _ _ _ _ _ h),
   pipeline_no_plus _, pipeline_no_slash _, pipeline_no_trailing_eq _⟩

/-- C1 witness: the round trip and character facts at the spec's concrete
instance `from="a"`, `to="b"`, `subject="S"`, `text="T"`, `messageId="M"`. -/
theorem createReplyMessage_roundtrip_and_urlsafe_witness :
    (∀ x ∈ strBytes "a" ++ strBytes "b" ++ strBytes "S" ++ strBytes "T" ++ strBytes "M",
        x < 256) ∧
    (decodeB64url (createReplyMessage (strBytes "a") (strBytes "b") (strBytes "S")
        (strBytes "T") (strBytes "M")) =
      replyLines (strBytes "a") (strBytes "b") (strBytes "S") (strBytes "T") (strBytes "M") ∧
    '+' ∉ createReplyMessage (strBytes "a") (strBytes "b") (strBytes "S")
        (strBytes "T") (strBytes "M") ∧
    '/' ∉ createReplyMessage (strBytes "a") (strBytes "b") (strBytes "S")
        (strBytes "T") (strBytes "M") ∧
    (createReplyMessage (strBytes "a") (strBytes "b") (strBytes "S")
        (strBytes "T") (strBytes "M")).getLast? ≠ some '=') :=
  ⟨by decide,
   createReplyMessage_roundtrip_and_urlsafe (strBytes "a") (strBytes "b") (strBytes "S")
     (strBytes "T") (strBytes "M") (by decide)⟩

/-! ## Data model of the service's collaborator calls

Each operation of `EmailService` is embedded as a pure function from the
outcomes of its external calls (provider responses, classifier results) to a
list of observable `Event`s plus a result.  A JavaScript exception that would
propagate to the operation's caller is an `Except.error`; the source's
`try { … } catch (error) { this.logger.error(…) }` becomes the mapping of
that error to a `logError` event and a normally-resolved `.ok` result. -/

/-- One entry of `email.payload.headers`: `{name, value}`. -/
structure Header where
  name : String
  value : String
deriving DecidableEq, Repr

/-- `email.payload` of a provider message. -/
structure GmailPayload where
  headers : List Header
deriving DecidableEq, Repr

/-- A provider message as consumed by `getEmailData`: header list plus the
optional `snippet` (absent field modelled as `none`). -/
structure GmailMessage where
  payload : GmailPayload
  snippet : Option String
deriving DecidableEq, Repr

/-- The record `{ from, to, subject, emailContent }` returned by
`getEmailData` (`from`/`to` are Lean keywords-in-waiting, hence `fromA`/`toA`). -/
structure EmailRecord where
  fromA : String
  toA : String
  subject : String
  emailContent : String
deriving DecidableEq, Repr

/-- One `emailQueue.add(taskName, payload, opts?)` call: the task name, the
`messageId` of the payload (`none` for the empty payload `{}`), and the
optional `delay` in milliseconds. -/
structure QueueAdd where
  taskName : String
  messageId : Option String
  delay : Option Nat
deriving DecidableEq, Repr

/-- What the JavaScript property read `labelMapping[category]` can yield:
one of the object's own string values, a member inherited from
`Object.prototype` (a function, or the `__proto__` accessor's object — in
either case a truthy non-string), or `undefined`. -/
inductive JsProp where
  | strVal : String → JsProp
  | protoVal : String → JsProp
  | undefVal : JsProp
deriving DecidableEq, Repr

/-- The own property names of `Object.prototype`, inherited by every plain
object literal such as `labelMapping`. -/
def objectPrototypeKeys : List String :=
  ["constructor", "hasOwnProperty", "isPrototypeOf", "propertyIsEnumerable",
   "toLocaleString", "toString", "valueOf", "__defineGetter__",
   "__defineSetter__", "__lookupGetter__", "__lookupSetter__", "__proto__"]

/-- JavaScript truthiness of a property-read result: the empty string and
`undefined` are falsy; a non-empty string, a function and an object are
truthy. -/
def jsTruthy : JsProp → Bool
  | .strVal s => s ≠ ""
  | .protoVal _ => true
  | .undefVal => false

/-- Template-literal rendering of a property-read result (`` `${labelId}` ``).
For an inherited `Object.prototype` member the engine prints the function's
source text, which no claim depends on; it is abstracted as a tag. -/
def jsDisplay : JsProp → String
  | .strVal s => s
  | .protoVal n => "[function " ++ n ++ "]"
  | .undefVal => "undefined"

/-- Observable actions of the service: provider calls, queue adds, classifier
calls, and log lines. -/
inductive Event where
  | providerList : Event
  | providerGet : String → Event
  | providerSend : List Char → Event
  | providerModify : String → List JsProp → List String → Event
  | queueAdd : QueueAdd → Event
  | openaiAnalyze : Event
  | openaiCategorize : Event
  | openaiGenerate : Event
  | logInfo : String → Event
  | logWarn : String → Event
  | logError : String → Event
deriving DecidableEq, Repr

/-- JavaScript `x || d` on an optional string: `undefined` and the empty
string are falsy, everything else is itself. -/
def jsOr (v : Option String) (d : String) : String :=
  match v with
  | some s => if s = "" then d else s
  | none => d

/-- The queue-add events of a trace. -/
def enqueuedTasks (evs : List Event) : List QueueAdd :=
  evs.filterMap fun e =>
    match e with
    | .queueAdd q => some q
    | _ => none

/-! ## The operations of `EmailService` -/

/-- `scheduleEmailChecking()`: one queue add of task `'checkUnreadEmails'`
with payload `{}` and `delay: 60000`. -/
def scheduleEmailChecking : List Event :=
  [.queueAdd ⟨"checkUnreadEmails", none, some 60000⟩]

/-- The body of `checkUnreadEmails()` before its `catch`: return immediately
when no Gmail client is bound; otherwise list unread messages
(`listRes` is the outcome of `users.messages.list`, whose `data.messages`
may be absent — `|| []`), and enqueue one `'processEmail'` task per message
id. An error of the provider call propagates out of the body. -/
def checkUnreadEmailsBody (gmailClient : Option Unit)
    (listRes : Except String (Option (List String))) :
    List Event × Except String Unit :=
  match gmailClient with
  | none => ([], .ok ())
  | some _ =>
    match listRes with
    | .error e => ([.providerList], .error e)
    | .ok msgsOpt =>
      let messages := msgsOpt.getD []
      (.providerList ::
        messages.map (fun m => .queueAdd ⟨"processEmail", some m, none⟩), .ok ())

/-- `checkUnreadEmails()`: the body wrapped in the source's
`catch { logger.error('Error checking unread emails:', …) }`. -/
def checkUnreadEmails (gmailClient : Option Unit)
    (listRes : Except String (Option (List String))) :
    List Event × Except String Unit :=
  match checkUnreadEmailsBody gmailClient listRes with
  | (evs, .ok _) => (evs, .ok ())
  | (evs, .error _) => (evs ++ [.logError "Error checking unread emails:"], .ok ())

/-- The header/snippet extraction of `getEmailData`:
`headers.find(h => h.name === 'Subject')?.value || 'No Subject'` and the
analogous `From`/`To`/`snippet` lines. -/
def extractEmailRecord (email : GmailMessage) : EmailRecord :=
  let headers := email.payload.headers
  { subject := jsOr ((headers.find? fun h => h.name == "Subject").map Header.value)
      "No Subject"
    fromA := jsOr ((headers.find? fun h => h.name == "From").map Header.value) ""
    toA := jsOr ((headers.find? fun h => h.name == "To").map Header.value) ""
    emailContent := jsOr email.snippet "" }

/-- The body of `getEmailData(messageId)` before its `catch`: fetch the
message (`getRes` is the outcome of `users.messages.get`) and extract the
record; a provider error propagates out of the body. -/
def getEmailDataBody (messageId : String)
    (getRes : Except String GmailMessage) :
    List Event × Except String EmailRecord :=
  match getRes with
  | .error e => ([.providerGet messageId], .error e)
  | .ok email => ([.providerGet messageId], .ok (extractEmailRecord email))

/-- `getEmailData(messageId)`: the body wrapped in the source's `catch`,
which logs and returns `null` (modelled as `none`). -/
def getEmailData (messageId : String) (getRes : Except String GmailMessage) :
    List Event × Except String (Option EmailRecord) :=
  match getEmailDataBody messageId getRes with
  | (evs, .ok r) => (evs, .ok (some r))
  | (evs, .error _) =>
    (evs ++ [.logError ("Error fetching email data for message ID " ++ messageId)],
     .ok none)

deriving instance DecidableEq for Except

/-- The property read `this.labelMapping[category]` on the fixed
`labelMapping` object literal: exact-string lookup among the three own
properties, falling through to the `Object.prototype` chain — a key naming
an inherited member (e.g. `'constructor'`) yields that truthy non-string
member, every other key yields `undefined`. -/
def labelMapping (category : String) : JsProp :=
  if category = "Interested" then .strVal "Label_3035777443514222121"
  else if category = "Not interested" then .strVal "Label_5649682475137114370"
  else if category = "More information" then .strVal "Label_5331249162142973886"
  else if category ∈ objectPrototypeKeys then .protoVal category
  else .undefVal

/-- `assignLabelToEmail(messageId, labelId)`: a `users.messages.modify` call
adding `[labelId]`, with its own `try/catch`; the returned trace always
resolves (success log or error log). `modifyRes` is the provider outcome.
The parameter is declared `string` in the source but receives whatever the
`labelMapping` lookup produced, hence `JsProp`. -/
def assignLabelToEmail (messageId : String) (labelId : JsProp)
    (modifyRes : Except String Unit) : List Event :=
  match modifyRes with
  | .ok _ =>
    [.providerModify messageId [labelId] [],
     .logInfo ("Label " ++ jsDisplay labelId ++ " assigned to email: " ++ messageId)]
  | .error _ =>
    [.providerModify messageId [labelId] [],
     .logError ("Error assigning label to email for message ID " ++ messageId)]

/-- `markEmailAsRead(messageId)`: a `users.messages.modify` call removing
`['UNREAD']`, with its own `try/catch`. -/
def markEmailAsRead (messageId : String) (modifyRes : Except String Unit) :
    List Event :=
  match modifyRes with
  | .ok _ =>
    [.providerModify messageId [] ["UNREAD"],
     .logInfo ("Email marked as read: " ++ messageId)]
  | .error _ =>
    [.providerModify messageId [] ["UNREAD"],
     .logError ("Error marking email as read for message ID " ++ messageId)]

/-- `createReplyMessage` at the string level, as called by `sendReplyEmail`;
`text` is optional because a failed reply generation passes `undefined`
forward, which `Array.prototype.join` renders as the empty string. -/
def createReplyMessageS (fromA toA subject : String) (text : Option String)
    (messageId : String) : List Char :=
  createReplyMessage (strBytes fromA) (strBytes toA) (strBytes subject)
    (strBytes (text.getD "")) (strBytes messageId)

/-- The `{ from, to, subject, text }` argument of `sendReplyEmail`. -/
structure ReplyData where
  fromA : String
  toA : String
  subject : String
  text : Option String
deriving DecidableEq, Repr

/-- `sendReplyEmail(messageId, emailData)`: builds the raw message with
`createReplyMessage(to, from, subject, text, messageId)` — note the
from/to swap — sends it, and catches its own errors. `sendRes` is the
provider outcome (`.ok` carries the sent message's id). -/
def sendReplyEmail (messageId : String) (emailData : ReplyData)
    (sendRes : Except String String) : List Event :=
  let message := createReplyMessageS emailData.toA emailData.fromA
    emailData.subject emailData.text messageId
  match sendRes with
  | .ok _ => [.providerSend message, .logInfo ("Reply sent to: " ++ emailData.fromA)]
  | .error _ => [.providerSend message, .logError "Error sending reply email:"]

/-- Modelled from the spec: the outcomes of the collaborator calls made
during `processIncomingEmail`. The `OpenaiService` (`analyzeEmailContext`,
`categorizeEmailContent`, `generateEmailReply`) is not part of the provided
source; the spec states that "a failed generate-reply yields an undefined
reply body passed forward", so the classifier calls are modelled as
non-throwing, returning `none` (undefined) on failure. The three Gmail
outcomes are `Except`, as those calls can throw. -/
structure Oracle where
  analyzeRes : Option String
  categorizeRes : Option String
  generateRes : Option String
  modifyLabelRes : Except String Unit
  sendRes : Except String String
  markReadRes : Except String Unit
deriving DecidableEq, Repr

/-- `processIncomingEmail(messageId, emailData)`: analyze, categorize,
look the category up in `labelMapping` (`labelMapping[category] || null`,
then `if (labelId)` — a truthiness test; an undefined category stringifies
to the key `"undefined"`), assign the label or warn, generate a reply, send
it with the original addresses, and mark the message read. Every Gmail step
catches its own errors, so the body resolves normally; the outer `catch` is
therefore never reached and the result is always `.ok`. -/
def processIncomingEmail (messageId : String) (emailData : EmailRecord)
    (o : Oracle) : List Event × Except String Unit :=
  let labelId := labelMapping (o.categorizeRes.getD "undefined")
  let labelEvents :=
    if jsTruthy labelId then assignLabelToEmail messageId labelId o.modifyLabelRes
    else [.logWarn "No label found for category"]
  ([.openaiAnalyze, .logInfo "Email Context:",
    .openaiCategorize, .logInfo "Email Category:"] ++
   labelEvents ++
   [.openaiGenerate, .logInfo "Generated Reply:"] ++
   sendReplyEmail messageId
     ⟨emailData.fromA, emailData.toA, emailData.subject, o.generateRes⟩ o.sendRes ++
   markEmailAsRead messageId o.markReadRes,
   .ok ())

/-! ## Theorems for the spec's claims -/

/-- C2 counterexample: the header list `[{Subject,""}, {Subject,"X"}]`
contains `{name:"Subject", value:"X"}`, yet `getEmailData` yields subject
`"No Subject"`, not `"X"`: the code takes the *first* matching header and
treats an empty value as absent (`?.value || 'No Subject'`). -/
theorem getEmailData_contains_header_cex :
    ((⟨"Subject", "X"⟩ : Header) ∈
      ([⟨"Subject", ""⟩, ⟨"Subject", "X"⟩] : List Header)) ∧
    (getEmailData "m1"
        (.ok ⟨⟨[⟨"Subject", ""⟩, ⟨"Subject", "X"⟩]⟩, some "snip"⟩)).2 =
      .ok (some ⟨"", "", "No Subject", "snip"⟩) ∧
    "No Subject" ≠ "X" := by
  decide

/-- C2 (amended): `getEmailData` extracts by exact case-sensitive name match
on the *first* matching header, treating an empty header value like a missing
header: a first `Subject` match with non-empty value `X` gives subject `X`,
no match (or an empty value) gives `"No Subject"`; the same rule gives
`From`/`To` the default `""`; the body is the provider snippet, `""` when
absent. -/
theorem getEmailData_header_extraction (hs : List Header) (sn : Option String)
    (m : String) :
    (getEmailData m (.ok ⟨⟨hs⟩, sn⟩)).2 =
      .ok (some (extractEmailRecord ⟨⟨hs⟩, sn⟩)) ∧
    (∀ hd, hs.find? (fun h => h.name == "Subject") = some hd → hd.value ≠ "" →
      (extractEmailRecord ⟨⟨hs⟩, sn⟩).subject = hd.value) ∧
    (hs.find? (fun h => h.name == "Subject") = none →
      (extractEmailRecord ⟨⟨hs⟩, sn⟩).subject = "No Subject") ∧
    (∀ hd, hs.find? (fun h => h.name == "Subject") = some hd → hd.value = "" →
      (extractEmailRecord ⟨⟨hs⟩, sn⟩).subject = "No Subject") ∧
    (∀ hd, hs.find? (fun h => h.name == "From") = some hd → hd.value ≠ "" →
      (extractEmailRecord ⟨⟨hs⟩, sn⟩).fromA = hd.value) ∧
    (hs.find? (fun h => h.name == "From") = none →
      (extractEmailRecord ⟨⟨hs⟩, sn⟩).fromA = "") ∧
    (∀ hd, hs.find? (fun h => h.name == "From") = some hd → hd.value = "" →
      (extractEmailRecord ⟨⟨hs⟩, sn⟩).fromA = "") ∧
    (∀ hd, hs.find? (fun h => h.name == "To") = some hd → hd.value ≠ "" →
      (extractEmailRecord ⟨⟨hs⟩, sn⟩).toA = hd.value) ∧
    (hs.find? (fun h => h.name == "To") = none →
      (extractEmailRecord ⟨⟨hs⟩, sn⟩).toA = "") ∧
    (∀ hd, hs.find? (fun h => h.name == "To") = some hd → hd.value = "" →
      (extractEmailRecord ⟨⟨hs⟩, sn⟩).toA = "") ∧
    (∀ s, sn = some s → (extractEmailRecord ⟨⟨hs⟩, sn⟩).emailContent = s) ∧
    (sn = none → (extractEmailRecord ⟨⟨hs⟩, sn⟩).emailContent = "") := by
  refine ⟨by simp [getEmailData, getEmailDataBody], ?_, ?_, ?_, ?_, ?_, ?_, ?_,
    ?_, ?_, ?_, ?_⟩
  · intro hd hfind hne
    simp [extractEmailRecord, jsOr, hfind, hne]
  · intro hfind
    simp [extractEmailRecord, jsOr, hfind]
  · intro hd hfind hv
    simp [extractEmailRecord, jsOr, hfind, hv]
  · intro hd hfind hne
    simp [extractEmailRecord, jsOr, hfind, hne]
  · intro hfind
    simp [extractEmailRecord, jsOr, hfind]
  · intro hd hfind hv
    simp [extractEmailRecord, jsOr, hfind, hv]
  · intro hd hfind hne
    simp [extractEmailRecord, jsOr, hfind, hne]
  · intro hfind
    simp [extractEmailRecord, jsOr, hfind]
  · intro hd hfind hv
    simp [extractEmailRecord, jsOr, hfind, hv]
  · intro s hsn
    simp only [extractEmailRecord, hsn, jsOr]
    split
    · simp_all
    · rfl
  · intro hsn
    simp [extractEmailRecord, jsOr, hsn]

/-- C2 witness: the extraction rules applied at the spec's concrete header
list `[{Subject,"X"}, {From,"a"}, {To,"b"}]` with snippet `"snip"`. -/
theorem getEmailData_header_extraction_witness :
    (getEmailData "m1"
        (.ok ⟨⟨[⟨"Subject", "X"⟩, ⟨"From", "a"⟩, ⟨"To", "b"⟩]⟩, some "snip"⟩)).2 =
      .ok (some (extractEmailRecord
        ⟨⟨[⟨"Subject", "X"⟩, ⟨"From", "a"⟩, ⟨"To", "b"⟩]⟩, some "snip"⟩)) ∧
    (extractEmailRecord
        ⟨⟨[⟨"Subject", "X"⟩, ⟨"From", "a"⟩, ⟨"To", "b"⟩]⟩, some "snip"⟩).subject = "X" ∧
    (extractEmailRecord
        ⟨⟨[⟨"Subject", "X"⟩, ⟨"From", "a"⟩, ⟨"To", "b"⟩]⟩, some "snip"⟩).fromA = "a" ∧
    (extractEmailRecord
        ⟨⟨[⟨"Subject", "X"⟩, ⟨"From", "a"⟩, ⟨"To", "b"⟩]⟩, some "snip"⟩).toA = "b" ∧
    (extractEmailRecord
        ⟨⟨[⟨"Subject", "X"⟩, ⟨"From", "a"⟩, ⟨"To", "b"⟩]⟩, some "snip"⟩).emailContent =
      "snip" := by
  have h := getEmailData_header_extraction
    [⟨"Subject", "X"⟩, ⟨"From", "a"⟩, ⟨"To", "b"⟩] (some "snip") "m1"
  exact ⟨h.1,
    h.2.1 ⟨"Subject", "X"⟩ (by decide) (by decide),
    h.2.2.2.2.1 ⟨"From", "a"⟩ (by decide) (by decide),
    h.2.2.2.2.2.2.2.1 ⟨"To", "b"⟩ (by decide) (by decide),
    h.2.2.2.2.2.2.2.2.2.2.1 "snip" rfl⟩

theorem labelMapping_ne_unread {c l : String} (h : labelMapping c = .strVal l) :
    l ≠ "UNREAD" := by
  unfold labelMapping at h
  split_ifs at h <;> simp only [JsProp.strVal.injEq] at h <;> subst h <;> decide

theorem labelMapping_strVal_ne_nil {c l : String} (h : labelMapping c = .strVal l) :
    l ≠ "" := by
  unfold labelMapping at h
  split_ifs at h <;> simp only [JsProp.strVal.injEq] at h <;> subst h <;> decide

/-- The only `removeLabelIds` lists ever sent by `processIncomingEmail` are
`[]` (label assignment) and `["UNREAD"]` (mark-as-read). -/
theorem processIncomingEmail_modify_rem (m : String) (d : EmailRecord) (o : Oracle) :
    ∀ id add rem, Event.providerModify id add rem ∈ (processIncomingEmail m d o).1 →
      rem = [] ∨ rem = ["UNREAD"] := by
  intro id add rem hmem
  cases htr : jsTruthy (labelMapping (o.categorizeRes.getD "undefined")) <;>
    cases hml : o.modifyLabelRes <;>
    cases hs : o.sendRes <;>
    cases hmr : o.markReadRes <;>
    simp [processIncomingEmail, assignLabelToEmail, sendReplyEmail,
      markEmailAsRead, htr, hml, hs, hmr] at hmem <;>
    tauto

/-- C3: in `processIncomingEmail` every step's failure is caught and logged
within that step and does not abort the rest: for *every* oracle (so in
particular after a failed label assignment) the trace still contains the
reply generation, the reply send and the mark-as-read call, the result is
always resolved, a failed generation (`generateRes = none`) passes the
undefined body forward into the sent message, and no modify call ever
removes an assigned label (no compensating rollback). -/
theorem processIncomingEmail_step_isolation (m : String) (d : EmailRecord)
    (o : Oracle) :
    (processIncomingEmail m d o).2 = .ok () ∧
    Event.openaiGenerate ∈ (processIncomingEmail m d o).1 ∧
    Event.providerSend (createReplyMessageS d.toA d.fromA d.subject o.generateRes m)
      ∈ (processIncomingEmail m d o).1 ∧
    Event.providerModify m [] ["UNREAD"] ∈ (processIncomingEmail m d o).1 ∧
    (∀ e, o.modifyLabelRes = .error e → ∀ lid,
      labelMapping (o.categorizeRes.getD "undefined") = .strVal lid →
      Event.logError ("Error assigning label to email for message ID " ++ m)
        ∈ (processIncomingEmail m d o).1) ∧
    (o.generateRes = none →
      Event.providerSend (createReplyMessageS d.toA d.fromA d.subject none m)
        ∈ (processIncomingEmail m d o).1) ∧
    (∀ lid, labelMapping (o.categorizeRes.getD "undefined") = .strVal lid →
      ∀ id add rem, Event.providerModify id add rem ∈ (processIncomingEmail m d o).1 →
        lid ∉ rem) := by
  refine ⟨rfl, ?_, ?_, ?_, ?_, ?_, ?_⟩
  · simp [processIncomingEmail]
  · cases hs : o.sendRes <;> simp [processIncomingEmail, sendReplyEmail, hs]
  · cases hmr : o.markReadRes <;>
      simp [processIncomingEmail, markEmailAsRead, hmr]
  · intro e hml lid hopt
    have hne := labelMapping_strVal_ne_nil hopt
    cases hs : o.sendRes <;>
      simp [processIncomingEmail, assignLabelToEmail, jsTruthy, hopt, hne, hml, hs]
  · intro hgen
    cases hs : o.sendRes <;>
      simp [processIncomingEmail, sendReplyEmail, hgen, hs]
  · intro lid hopt id add rem hmem hrem
    have h2 := processIncomingEmail_modify_rem m d o id add rem hmem
    have := labelMapping_ne_unread hopt
    rcases h2 with h2 | h2 <;> subst h2 <;> simp_all

/-- C3 witness: with category `"Interested"`, a failed label assignment, a
failed reply generation and a failed send, the process still generates,
sends (with the undefined body rendered empty), marks as read, resolves
normally, and the assigned label id is never removed. -/
theorem processIncomingEmail_step_isolation_witness :
    (processIncomingEmail "m1" ⟨"alice", "bob", "Hi", "body"⟩
        ⟨some "ctx", some "Interested", none, .error "boom", .error "sendfail",
          .ok ()⟩).2 = .ok () ∧
    Event.openaiGenerate ∈ (processIncomingEmail "m1" ⟨"alice", "bob", "Hi", "body"⟩
        ⟨some "ctx", some "Interested", none, .error "boom", .error "sendfail",
          .ok ()⟩).1 ∧
    Event.providerSend (createReplyMessageS "bob" "alice" "Hi" none "m1")
      ∈ (processIncomingEmail "m1" ⟨"alice", "bob", "Hi", "body"⟩
        ⟨some "ctx", some "Interested", none, .error "boom", .error "sendfail",
          .ok ()⟩).1 ∧
    Event.providerModify "m1" [] ["UNREAD"]
      ∈ (processIncomingEmail "m1" ⟨"alice", "bob", "Hi", "body"⟩
        ⟨some "ctx", some "Interested", none, .error "boom", .error "sendfail",
          .ok ()⟩).1 ∧
    Event.logError "Error assigning label to email for message ID m1"
      ∈ (processIncomingEmail "m1" ⟨"alice", "bob", "Hi", "body"⟩
        ⟨some "ctx", some "Interested", none, .error "boom", .error "sendfail",
          .ok ()⟩).1 ∧
    ("Label_3035777443514222121" : String) ∉ (["UNREAD"] : List String) := by
  have h := processIncomingEmail_step_isolation "m1" ⟨"alice", "bob", "Hi", "body"⟩
    ⟨some "ctx", some "Interested", none, .error "boom", .error "sendfail", .ok ()⟩
  exact ⟨h.1, h.2.1, h.2.2.2.2.2.1 rfl, h.2.2.2.1,
    h.2.2.2.2.1 "boom" rfl "Label_3035777443514222121" (by decide),
    h.2.2.2.2.2.2 "Label_3035777443514222121" (by decide) "m1" [] ["UNREAD"]
      h.2.2.2.1⟩

/-- C4 counterexample: the category `"constructor"` is outside the mapped set
`{"Interested", "Not interested", "More information"}`, yet
`labelMapping[category]` hits the inherited `Object.prototype.constructor` —
a truthy value — so a label-modify call IS attempted (with that non-string
value) and no warning is logged, refuting the claim's universal no-op for
unmapped categories. -/
theorem processIncomingEmail_unmapped_label_cex :
    "constructor" ≠ "Interested" ∧
    "constructor" ≠ "Not interested" ∧
    "constructor" ≠ "More information" ∧
    Event.providerModify "m1" [.protoVal "constructor"] []
      ∈ (processIncomingEmail "m1" ⟨"a", "b", "S", "x"⟩
        ⟨some "ctx", some "constructor", none, .ok (), .ok "sid", .ok ()⟩).1 ∧
    Event.logWarn "No label found for category"
      ∉ (processIncomingEmail "m1" ⟨"a", "b", "S", "x"⟩
        ⟨some "ctx", some "constructor", none, .ok (), .ok "sid", .ok ()⟩).1 := by
  decide

/-- C4 (amended): the category is looked up by JavaScript object-property
read in the fixed `labelMapping`: `"Interested"` yields a modify call adding
exactly its mapped id; a category that is neither mapped nor the name of an
inherited `Object.prototype` member yields no label-assignment modify (every
modify in the trace has empty `addLabelIds`) and a logged warning, not a
failure; but a category naming an inherited `Object.prototype` member (e.g.
`"constructor"`) yields that truthy non-string value, so a label-modify call
is attempted with it and no warning is logged. The operation resolves
normally in every case. -/
theorem processIncomingEmail_label_lookup (m : String) (d : EmailRecord)
    (o : Oracle) :
    (o.categorizeRes = some "Interested" →
      Event.providerModify m [.strVal "Label_3035777443514222121"] []
        ∈ (processIncomingEmail m d o).1) ∧
    (∀ c, o.categorizeRes = some c →
      c ≠ "Interested" → c ≠ "Not interested" → c ≠ "More information" →
      c ∉ objectPrototypeKeys →
      (∀ id add rem,
        Event.providerModify id add rem ∈ (processIncomingEmail m d o).1 →
          add = []) ∧
      Event.logWarn "No label found for category" ∈ (processIncomingEmail m d o).1) ∧
    (∀ c, o.categorizeRes = some c →
      c ≠ "Interested" → c ≠ "Not interested" → c ≠ "More information" →
      c ∈ objectPrototypeKeys →
      Event.providerModify m [.protoVal c] [] ∈ (processIncomingEmail m d o).1 ∧
      Event.logWarn "No label found for category"
        ∉ (processIncomingEmail m d o).1) ∧
    (processIncomingEmail m d o).2 = .ok () := by
  refine ⟨?_, ?_, ?_, rfl⟩
  · intro hcat
    have hopt : labelMapping (o.categorizeRes.getD "undefined") =
        .strVal "Label_3035777443514222121" := by
      rw [hcat]; decide
    cases hml : o.modifyLabelRes <;>
      simp [processIncomingEmail, assignLabelToEmail, jsTruthy, hopt, hml]
  · intro c hcat h1 h2 h3 h4
    have hopt : labelMapping (o.categorizeRes.getD "undefined") = .undefVal := by
      rw [hcat]
      simp [labelMapping, h1, h2, h3, h4]
    have htr : jsTruthy (labelMapping (o.categorizeRes.getD "undefined")) = false := by
      rw [hopt]; decide
    constructor
    · intro id add rem hmem
      cases hs : o.sendRes <;>
        cases hmr : o.markReadRes <;>
        simp [processIncomingEmail, sendReplyEmail, markEmailAsRead,
          htr, hs, hmr] at hmem <;>
        tauto
    · simp [processIncomingEmail, htr]
  · intro c hcat h1 h2 h3 h4
    have hopt : labelMapping (o.categorizeRes.getD "undefined") = .protoVal c := by
      rw [hcat]
      simp [labelMapping, h1, h2, h3, h4]
    constructor
    · cases hml : o.modifyLabelRes <;>
        simp [processIncomingEmail, assignLabelToEmail, jsTruthy, hopt, hml]
    · cases hml : o.modifyLabelRes <;>
        cases hs : o.sendRes <;>
        cases hmr : o.markReadRes <;>
        simp [processIncomingEmail, assignLabelToEmail, sendReplyEmail,
          markEmailAsRead, jsTruthy, hopt, hml, hs, hmr]

/-- C4 witness: category `"Interested"` triggers a modify adding its mapped
label id; the plainly unmapped category `"Spam"` triggers no
label-assignment modify but a warning and still resolves; the inherited key
`"constructor"` triggers a modify with the inherited value and no warning. -/
theorem processIncomingEmail_label_lookup_witness :
    Event.providerModify "m1" [.strVal "Label_3035777443514222121"] []
      ∈ (processIncomingEmail "m1" ⟨"a", "b", "S", "body"⟩
        ⟨some "ctx", some "Interested", some "r", .ok (), .ok "sid", .ok ()⟩).1 ∧
    (Event.providerModify "m1" [] ["UNREAD"]
        ∈ (processIncomingEmail "m1" ⟨"a", "b", "S", "body"⟩
          ⟨some "ctx", some "Spam", some "r", .ok (), .ok "sid", .ok ()⟩).1 →
      ([] : List JsProp) = []) ∧
    Event.logWarn "No label found for category"
      ∈ (processIncomingEmail "m1" ⟨"a", "b", "S", "body"⟩
        ⟨some "ctx", some "Spam", some "r", .ok (), .ok "sid", .ok ()⟩).1 ∧
    Event.providerModify "m1" [.protoVal "constructor"] []
      ∈ (processIncomingEmail "m1" ⟨"a", "b", "S", "body"⟩
        ⟨some "ctx", some "constructor", some "r", .ok (), .ok "sid", .ok ()⟩).1 ∧
    Event.logWarn "No label found for category"
      ∉ (processIncomingEmail "m1" ⟨"a", "b", "S", "body"⟩
        ⟨some "ctx", some "constructor", some "r", .ok (), .ok "sid", .ok ()⟩).1 ∧
    (processIncomingEmail "m1" ⟨"a", "b", "S", "body"⟩
        ⟨some "ctx", some "Spam", some "r", .ok (), .ok "sid", .ok ()⟩).2 = .ok () := by
  have hI := processIncomingEmail_label_lookup "m1" ⟨"a", "b", "S", "body"⟩
    ⟨some "ctx", some "Interested", some "r", .ok (), .ok "sid", .ok ()⟩
  have hS := processIncomingEmail_label_lookup "m1" ⟨"a", "b", "S", "body"⟩
    ⟨some "ctx", some "Spam", some "r", .ok (), .ok "sid", .ok ()⟩
  have hC := processIncomingEmail_label_lookup "m1" ⟨"a", "b", "S", "body"⟩
    ⟨some "ctx", some "constructor", some "r", .ok (), .ok "sid", .ok ()⟩
  have hSpam := hS.2.1 "Spam" rfl (by decide) (by decide) (by decide) (by decide)
  have hCtor := hC.2.2.1 "constructor" rfl (by decide) (by decide) (by decide)
    (by decide)
  exact ⟨hI.1 rfl, fun hmem => hSpam.1 "m1" [] ["UNREAD"] hmem, hSpam.2,
    hCtor.1, hCtor.2, hS.2.2.2⟩

/-- C5: for every list of unread message ids returned by the provider,
`checkUnreadEmails` enqueues exactly one `processEmail` task per id, carrying
that id as its `messageId` payload; for distinct ids the payloads are
distinct. -/
theorem checkUnreadEmails_enqueues_per_message (ids : List String) :
    enqueuedTasks (checkUnreadEmails (some ()) (.ok (some ids))).1 =
      ids.map (fun i => ⟨"processEmail", some i, none⟩) ∧
    (enqueuedTasks (checkUnreadEmails (some ()) (.ok (some ids))).1).length =
      ids.length ∧
    (ids.Nodup →
      ((enqueuedTasks (checkUnreadEmails (some ()) (.ok (some ids))).1).map
        QueueAdd.messageId).Nodup) := by
  have key : ∀ l : List String,
      enqueuedTasks (l.map fun m =>
        Event.queueAdd ⟨"processEmail", some m, none⟩) =
        l.map (fun i => ⟨"processEmail", some i, none⟩) := by
    intro l
    induction l with
    | nil => rfl
    | cons a t ih => simpa [enqueuedTasks, List.filterMap_cons] using ih
  have he : enqueuedTasks (checkUnreadEmails (some ()) (.ok (some ids))).1 =
      ids.map (fun i => ⟨"processEmail", some i, none⟩) := by
    have hc : (checkUnreadEmails (some ()) (.ok (some ids))).1 =
        Event.providerList ::
          ids.map fun m => Event.queueAdd ⟨"processEmail", some m, none⟩ := rfl
    rw [hc]
    simpa [enqueuedTasks, List.filterMap_cons] using key ids
  refine ⟨he, by rw [he]; simp, ?_⟩
  intro hnd
  rw [he, List.map_map]
  exact hnd.map (fun a b hab => by simpa using hab)

/-- C5 witness: three distinct unread ids give exactly three `processEmail`
tasks with the three distinct payloads. -/
theorem checkUnreadEmails_enqueues_per_message_witness :
    enqueuedTasks (checkUnreadEmails (some ()) (.ok (some ["i1", "i2", "i3"]))).1 =
      [⟨"processEmail", some "i1", none⟩, ⟨"processEmail", some "i2", none⟩,
       ⟨"processEmail", some "i3", none⟩] ∧
    (enqueuedTasks
        (checkUnreadEmails (some ()) (.ok (some ["i1", "i2", "i3"]))).1).length = 3 ∧
    ((enqueuedTasks (checkUnreadEmails (some ()) (.ok (some ["i1", "i2", "i3"]))).1).map
      QueueAdd.messageId).Nodup := by
  have h := checkUnreadEmails_enqueues_per_message ["i1", "i2", "i3"]
  exact ⟨h.1, h.2.1, h.2.2 (by decide)⟩

/-- C6 counterexample: the scheduled check task is enqueued under the name
`'checkUnreadEmails'`, not `"check-unread"` (and the per-message task is
`'processEmail'`, not `"process-email"`). -/
theorem scheduleEmailChecking_task_name_cex :
    enqueuedTasks scheduleEmailChecking = [⟨"checkUnreadEmails", none, some 60000⟩] ∧
    (⟨"check-unread", none, some 60000⟩ : QueueAdd) ∉
      enqueuedTasks scheduleEmailChecking ∧
    "checkUnreadEmails" ≠ "check-unread" ∧
    "processEmail" ≠ "process-email" := by
  decide

/-- C6 (amended): the service enqueues exactly two task names —
`'checkUnreadEmails'` with the empty payload and `'processEmail'` with a
`messageId` payload — and the check task scheduled by
`scheduleEmailChecking` carries a fixed delay of 60000 ms (60 seconds);
no other operation enqueues anything. -/
theorem service_task_names (gmailClient : Option Unit)
    (listRes : Except String (Option (List String))) (m : String)
    (getRes : Except String GmailMessage) (d : EmailRecord) (o : Oracle) :
    enqueuedTasks scheduleEmailChecking =
      [⟨"checkUnreadEmails", none, some 60000⟩] ∧
    (∀ q ∈ enqueuedTasks (checkUnreadEmails gmailClient listRes).1,
      q.taskName = "processEmail" ∧ q.delay = none ∧ ∃ i, q.messageId = some i) ∧
    enqueuedTasks (getEmailData m getRes).1 = [] ∧
    enqueuedTasks (processIncomingEmail m d o).1 = [] := by
  refine ⟨by decide, ?_, ?_, ?_⟩
  · intro q hq
    cases gmailClient with
    | none => simp [checkUnreadEmails, checkUnreadEmailsBody, enqueuedTasks] at hq
    | some _ =>
      cases listRes with
      | error e =>
        simp [checkUnreadEmails, checkUnreadEmailsBody, enqueuedTasks] at hq
      | ok msgsOpt =>
        simp [checkUnreadEmails, checkUnreadEmailsBody, enqueuedTasks,
          List.filterMap_cons, List.filterMap_map, Function.comp] at hq
        obtain ⟨i, _, hi⟩ := hq
        subst hi
        exact ⟨rfl, rfl, i, rfl⟩
  · cases getRes <;> simp [getEmailData, getEmailDataBody, enqueuedTasks]
  · cases htr : jsTruthy (labelMapping (o.categorizeRes.getD "undefined")) <;>
      cases hml : o.modifyLabelRes <;>
      cases hs : o.sendRes <;>
      cases hmr : o.markReadRes <;>
      simp [processIncomingEmail, assignLabelToEmail, sendReplyEmail,
        markEmailAsRead, enqueuedTasks, htr, hml, hs, hmr]

/-- C6 witness: the amended task-name facts at a concrete run (one unread
id, one process run). -/
theorem service_task_names_witness :
    enqueuedTasks scheduleEmailChecking =
      [⟨"checkUnreadEmails", none, some 60000⟩] ∧
    (⟨"processEmail", some "i1", none⟩ : QueueAdd).taskName = "processEmail" ∧
    enqueuedTasks (getEmailData "m1" (.error "boom")).1 = [] ∧
    enqueuedTasks (processIncomingEmail "m1" ⟨"a", "b", "S", "body"⟩
      ⟨some "ctx", some "Interested", some "r", .ok (), .ok "sid", .ok ()⟩).1 = [] := by
  have h := service_task_names (some ()) (.ok (some ["i1"])) "m1" (.error "boom")
    ⟨"a", "b", "S", "body"⟩
    ⟨some "ctx", some "Interested", some "r", .ok (), .ok "sid", .ok ()⟩
  exact ⟨h.1, (h.2.1 ⟨"processEmail", some "i1", none⟩ (by decide)).1, h.2.2.1,
    h.2.2.2⟩

/-- C7: with no bound Gmail client, `checkUnreadEmails` returns immediately:
its trace is empty (no provider call, no queue add, no log) and its result
resolves normally. -/
theorem checkUnreadEmails_no_session
    (listRes : Except String (Option (List String))) :
    checkUnreadEmails none listRes = ([], .ok ()) := by
  simp [checkUnreadEmails, checkUnreadEmailsBody]

/-- Is an event a `users.messages.list` call? -/
def isProviderList : Event → Bool
  | .providerList => true
  | _ => false

/-- Is an event a `users.messages.get` call? -/
def isProviderGet : Event → Bool
  | .providerGet _ => true
  | _ => false

/-- Is an event a `users.messages.send` call? -/
def isProviderSend : Event → Bool
  | .providerSend _ => true
  | _ => false

/-- Is an event a `users.messages.modify` call? -/
def isProviderModify : Event → Bool
  | .providerModify _ _ _ => true
  | _ => false

/-- C8: every externally-facing operation follows catch-log-continue: for
every oracle, `checkUnreadEmails`, `getEmailData` and `processIncomingEmail`
resolve normally (never `.error`), each throwing provider call — the list,
the get, the send, the label-assignment modify (whenever the truthy lookup
makes it attempted) and the mark-as-read modify — leaves its `logError` in
the trace, and no provider call is retried: each operation makes its
list/get/send call at most once and at most the two modify calls of one
pass. -/
theorem service_catch_log_resolve (gmailClient : Option Unit)
    (listRes : Except String (Option (List String))) (m : String)
    (getRes : Except String GmailMessage) (d : EmailRecord) (o : Oracle) :
    (checkUnreadEmails gmailClient listRes).2 = .ok () ∧
    (∀ e, listRes = .error e → gmailClient = some () →
      Event.logError "Error checking unread emails:"
        ∈ (checkUnreadEmails gmailClient listRes).1) ∧
    (∃ v, (getEmailData m getRes).2 = .ok v) ∧
    (∀ e, getRes = .error e →
      Event.logError ("Error fetching email data for message ID " ++ m)
        ∈ (getEmailData m getRes).1) ∧
    (processIncomingEmail m d o).2 = .ok () ∧
    (∀ e, o.sendRes = .error e →
      Event.logError "Error sending reply email:"
        ∈ (processIncomingEmail m d o).1) ∧
    (∀ e, o.modifyLabelRes = .error e →
      jsTruthy (labelMapping (o.categorizeRes.getD "undefined")) = true →
      Event.logError ("Error assigning label to email for message ID " ++ m)
        ∈ (processIncomingEmail m d o).1) ∧
    (∀ e, o.markReadRes = .error e →
      Event.logError ("Error marking email as read for message ID " ++ m)
        ∈ (processIncomingEmail m d o).1) ∧
    ((checkUnreadEmails gmailClient listRes).1.countP
      (fun e => isProviderList e)) ≤ 1 ∧
    ((getEmailData m getRes).1.countP (fun e => isProviderGet e)) ≤ 1 ∧
    ((processIncomingEmail m d o).1.countP (fun e => isProviderSend e)) = 1 ∧
    ((processIncomingEmail m d o).1.countP (fun e => isProviderModify e)) ≤ 2 := by
  refine ⟨?_, ?_, ?_, ?_, rfl, ?_, ?_, ?_, ?_, ?_, ?_, ?_⟩
  · cases gmailClient <;> cases listRes <;>
      simp [checkUnreadEmails, checkUnreadEmailsBody]
  · intro e hl hg
    subst hl hg
    simp [checkUnreadEmails, checkUnreadEmailsBody]
  · cases getRes <;> exact ⟨_, rfl⟩
  · intro e hg
    subst hg
    simp [getEmailData, getEmailDataBody]
  · intro e hs
    cases htr : jsTruthy (labelMapping (o.categorizeRes.getD "undefined")) <;>
      simp [processIncomingEmail, sendReplyEmail, htr, hs]
  · intro e hml htr
    cases hs : o.sendRes <;>
      simp [processIncomingEmail, assignLabelToEmail, htr, hml, hs]
  · intro e hmr
    cases htr : jsTruthy (labelMapping (o.categorizeRes.getD "undefined")) <;>
      simp [processIncomingEmail, markEmailAsRead, htr, hmr]
  · cases gmailClient with
    | none => simp [checkUnreadEmails, checkUnreadEmailsBody]
    | some _ =>
      cases listRes with
      | error e => simp [checkUnreadEmails, checkUnreadEmailsBody, isProviderList]
      | ok msgsOpt =>
        have hc : (checkUnreadEmails (some ()) (.ok msgsOpt)).1 =
            Event.providerList :: (msgsOpt.getD []).map fun i =>
              Event.queueAdd ⟨"processEmail", some i, none⟩ := rfl
        rw [hc]
        simp only [List.countP_cons, List.countP_map]
        have : ∀ l : List String,
            l.countP ((fun e => isProviderList e) ∘ fun i =>
              Event.queueAdd ⟨"processEmail", some i, none⟩) = 0 := by
          intro l
          induction l with
          | nil => rfl
          | cons a t ih => simp [List.countP_cons, isProviderList, ih]
        rw [this]
        simp [isProviderList]
  · cases getRes <;> simp [getEmailData, getEmailDataBody, isProviderGet,
      List.countP_cons]
  · cases htr : jsTruthy (labelMapping (o.categorizeRes.getD "undefined")) <;>
      cases hml : o.modifyLabelRes <;>
      cases hs : o.sendRes <;>
      cases hmr : o.markReadRes <;>
      simp [processIncomingEmail, assignLabelToEmail, sendReplyEmail,
        markEmailAsRead, htr, hml, hs, hmr, isProviderSend, List.countP_cons,
        List.countP_append]
  · cases htr : jsTruthy (labelMapping (o.categorizeRes.getD "undefined")) <;>
      cases hml : o.modifyLabelRes <;>
      cases hs : o.sendRes <;>
      cases hmr : o.markReadRes <;>
      simp [processIncomingEmail, assignLabelToEmail, sendReplyEmail,
        markEmailAsRead, htr, hml, hs, hmr, isProviderModify, List.countP_cons,
        List.countP_append]

/-- C8 witness: the catch-log-resolve and single-call facts at a concrete run
in which every provider call throws. -/
theorem service_catch_log_resolve_witness :
    (checkUnreadEmails (some ()) (.error "neterr")).2 = .ok () ∧
    Event.logError "Error checking unread emails:"
      ∈ (checkUnreadEmails (some ()) (.error "neterr")).1 ∧
    (getEmailData "m1" (.error "geterr")).2 = .ok none ∧
    Event.logError "Error fetching email data for message ID m1"
      ∈ (getEmailData "m1" (.error "geterr")).1 ∧
    (processIncomingEmail "m1" ⟨"a", "b", "S", "body"⟩
        ⟨none, some "Interested", none, .error "l", .error "s", .error "r"⟩).2 =
      .ok () ∧
    Event.logError "Error sending reply email:"
      ∈ (processIncomingEmail "m1" ⟨"a", "b", "S", "body"⟩
        ⟨none, some "Interested", none, .error "l", .error "s", .error "r"⟩).1 ∧
    Event.logError "Error assigning label to email for message ID m1"
      ∈ (processIncomingEmail "m1" ⟨"a", "b", "S", "body"⟩
        ⟨none, some "Interested", none, .error "l", .error "s", .error "r"⟩).1 ∧
    Event.logError "Error marking email as read for message ID m1"
      ∈ (processIncomingEmail "m1" ⟨"a", "b", "S", "body"⟩
        ⟨none, some "Interested", none, .error "l", .error "s", .error "r"⟩).1 ∧
    ((processIncomingEmail "m1" ⟨"a", "b", "S", "body"⟩
        ⟨none, some "Interested", none, .error "l", .error "s", .error "r"⟩).1.countP
      (fun e => isProviderSend e)) = 1 := by
  have h := service_catch_log_resolve (some ()) (.error "neterr") "m1"
    (.error "geterr") ⟨"a", "b", "S", "body"⟩
    ⟨none, some "Interested", none, .error "l", .error "s", .error "r"⟩
  exact ⟨h.1, h.2.1 "neterr" rfl rfl, rfl, h.2.2.2.1 "geterr" rfl, h.2.2.2.2.1,
    h.2.2.2.2.2.1 "s" rfl, h.2.2.2.2.2.2.1 "l" rfl (by decide),
    h.2.2.2.2.2.2.2.1 "r" rfl, h.2.2.2.2.2.2.2.2.2.2.1⟩

/-- C9: `getEmailData` either returns the extracted record (on a successful
fetch) or logs the error and resolves to `null` (on any error); it never
rejects. -/
theorem getEmailData_record_or_null (m : String)
    (getRes : Except String GmailMessage) :
    (∀ email, getRes = .ok email →
      getEmailData m getRes =
        ([.providerGet m], .ok (some (extractEmailRecord email)))) ∧
    (∀ e, getRes = .error e →
      getEmailData m getRes =
        ([.providerGet m,
          .logError ("Error fetching email data for message ID " ++ m)],
         .ok none)) ∧
    (∃ v, (getEmailData m getRes).2 = .ok v) := by
  refine ⟨?_, ?_, ?_⟩
  · intro email h
    subst h
    rfl
  · intro e h
    subst h
    rfl
  · cases getRes <;> exact ⟨_, rfl⟩

/-- C9 witness: a successful fetch returns the record, a throwing fetch
returns `null` with the error logged. -/
theorem getEmailData_record_or_null_witness :
    getEmailData "m1" (.ok ⟨⟨[⟨"Subject", "X"⟩]⟩, some "snip"⟩) =
      ([.providerGet "m1"],
       .ok (some (extractEmailRecord ⟨⟨[⟨"Subject", "X"⟩]⟩, some "snip"⟩))) ∧
    getEmailData "m1" (.error "boom") =
      ([.providerGet "m1",
        .logError "Error fetching email data for message ID m1"],
       .ok none) := by
  exact ⟨(getEmailData_record_or_null "m1"
      (.ok ⟨⟨[⟨"Subject", "X"⟩]⟩, some "snip"⟩)).1 _ rfl,
    (getEmailData_record_or_null "m1" (.error "boom")).2.1 "boom" rfl⟩

theorem strBytes_append (s t : String) : strBytes (s ++ t) = strBytes s ++ strBytes t := by
  simp [strBytes, String.data_append]

/-- C10 (implicit): `processIncomingEmail` sends the reply with the
addresses swapped — `sendReplyEmail` passes `(to, from)` to
`createReplyMessage`, so the sent raw message is
`createReplyMessageS d.toA d.fromA …` and its decoded block opens with
`From: ⟨original to⟩` and `To: ⟨original from⟩`: the reply goes back to the
original sender. -/
theorem processIncomingEmail_reply_swaps_addresses (m : String)
    (d : EmailRecord) (o : Oracle)
    (h1 : ∀ c ∈ d.fromA.data, c.toNat < 128)
    (h2 : ∀ c ∈ d.toA.data, c.toNat < 128)
    (h3 : ∀ c ∈ d.subject.data, c.toNat < 128)
    (h4 : ∀ c ∈ (o.generateRes.getD "").data, c.toNat < 128)
    (h5 : ∀ c ∈ m.data, c.toNat < 128) :
    Event.providerSend (createReplyMessageS d.toA d.fromA d.subject o.generateRes m)
      ∈ (processIncomingEmail m d o).1 ∧
    ∃ rest,
      decodeB64url (createReplyMessageS d.toA d.fromA d.subject o.generateRes m) =
        strBytes ("From: " ++ d.toA) ++ [10] ++
        strBytes ("To: " ++ d.fromA) ++ [10] ++ rest := by
  have hb : ∀ x ∈ strBytes d.toA ++ strBytes d.fromA ++ strBytes d.subject ++
      strBytes (o.generateRes.getD "") ++ strBytes m, x < 256 := by
    intro x hx
    simp only [List.mem_append, strBytes, List.mem_map] at hx
    rcases hx with (((⟨c, hc, rfl⟩ | ⟨c, hc, rfl⟩) | ⟨c, hc, rfl⟩) | ⟨c, hc, rfl⟩) |
      ⟨c, hc, rfl⟩
    · have := h2 c hc; omega
    · have := h1 c hc; omega
    · have := h3 c hc; omega
    · have := h4 c hc; omega
    · have := h5 c hc; omega
  obtain ⟨hdec, -, -, -⟩ := createReplyMessage_roundtrip_and_urlsafe
    (strBytes d.toA) (strBytes d.fromA) (strBytes d.subject)
    (strBytes (o.generateRes.getD "")) (strBytes m) hb
  constructor
  · cases hs : o.sendRes <;> simp [processIncomingEmail, sendReplyEmail, hs]
  · refine ⟨strBytes "Subject: Re: " ++ strBytes d.subject ++ [10] ++
      strBytes "In-Reply-To: " ++ strBytes m ++ [10] ++
      strBytes "References: " ++ strBytes m ++ [10] ++ [10] ++
      strBytes (o.generateRes.getD ""), ?_⟩
    rw [show createReplyMessageS d.toA d.fromA d.subject o.generateRes m =
      createReplyMessage (strBytes d.toA) (strBytes d.fromA) (strBytes d.subject)
        (strBytes (o.generateRes.getD "")) (strBytes m) from rfl, hdec]
    simp [replyLines, strBytes_append, List.append_assoc]

/-- C10 witness: with original record from `"alice"`, to `"bob"`, the sent
reply is built as `createReplyMessage("bob", "alice", …)`. -/
theorem processIncomingEmail_reply_swaps_addresses_witness :
    Event.providerSend (createReplyMessageS "bob" "alice" "Hi" (some "Thanks") "m1")
      ∈ (processIncomingEmail "m1" ⟨"alice", "bob", "Hi", "body"⟩
        ⟨some "ctx", some "Interested", some "Thanks", .ok (), .ok "sid", .ok ()⟩).1 :=
  (processIncomingEmail_reply_swaps_addresses "m1" ⟨"alice", "bob", "Hi", "body"⟩
    ⟨some "ctx", some "Interested", some "Thanks", .ok (), .ok "sid", .ok ()⟩
    (by decide) (by decide) (by decide) (by decide) (by decide)).1

end ReplyGennie
